import Mathlib

/-!
Verification development for the vopecs-pos-desktop repository.

The repository consists of two Rust source files:
- src-tauri/src/database.rs: the SQLite schema (init_database) for the
  offline POS local store;
- src-tauri/src/main.rs: the host glue (settings load/save, window and
  print handling, a hand-rolled base64 encoder, and the invoke handler
  listing the commands exposed to the webview).

The store operations described by the specification (enqueue_sale,
replace_products, mark_synced, ...) are not implemented in the sources:
only their schema is. Where a definition models such a missing
operation, its doc comment starts with "Modelled from the spec:".
Everything else is embedded directly from the Rust sources.

Floating-point REAL columns are modelled with Int: every claim under
verification involves only comparison and equality of amounts, never
float arithmetic. Timestamps are modelled as Nat instants.
-/

namespace Vopecs

/-! ## Settings (main.rs lines 16-97) -/

/-- Embeds the Rust struct AppSettings (main.rs lines 16-22). -/
structure AppSettings where
  server_url : String
  window_width : Nat
  window_height : Nat
  fullscreen : Bool
deriving DecidableEq, Repr

/-- Embeds impl Default for AppSettings (main.rs lines 24-33). -/
def AppSettings.defaultSettings : AppSettings :=
  { server_url := "https://po.megacaresa.com/"
  , window_width := 1400
  , window_height := 900
  , fullscreen := false }

/-- Embeds load_settings (main.rs lines 49-58). The fallible filesystem
read is modelled by an Option String (none when the file does not exist
or cannot be read), and serde_json parsing by an oracle
parseJson : String -> Option AppSettings (none when the content does not
parse as AppSettings). The Rust function returns the parsed settings on
full success and AppSettings::default() on every failure path. -/
def load_settings (file : Option String) (parseJson : String → Option AppSettings) :
    AppSettings :=
  match file with
  | some content =>
    match parseJson content with
    | some s => s
    | none => AppSettings.defaultSettings
  | none => AppSettings.defaultSettings

/-- The managed application state (main.rs lines 35-38); the settings
path is immaterial to the claims and omitted. -/
structure AppState where
  settings : AppSettings
deriving DecidableEq, Repr

/-- Embeds save_settings_to_file (main.rs lines 60-66). Whether the
filesystem write succeeds is modelled by the writeOk flag; the Rust
function returns Ok(()) exactly when serialization and the write both
succeed, and an error string otherwise. -/
def save_settings_to_file (writeOk : Bool) : Except String Unit :=
  if writeOk then Except.ok () else Except.error "Failed to write settings"

/-- Embeds the save_settings command (main.rs lines 74-83): the
in-memory state is overwritten first, then the file write is attempted;
a failing write propagates its error but the in-memory overwrite is not
rolled back. -/
def save_settings (st : AppState) (new_settings : AppSettings) (writeOk : Bool) :
    AppState × Except String Unit :=
  let st1 : AppState := { settings := new_settings }
  (st1, save_settings_to_file writeOk)

/-- Embeds the get_settings command (main.rs lines 68-72). -/
def get_settings (st : AppState) : AppSettings :=
  st.settings

/-- Embeds the get_server_url command (main.rs lines 85-89). -/
def get_server_url (st : AppState) : String :=
  st.settings.server_url

/-! ## The invoke handler (main.rs lines 825-838) -/

/-- The exact list of commands registered in tauri::generate_handler!
(main.rs lines 825-838): these are the only operations the host exposes
to the webview. -/
def invoke_handler_commands : List String :=
  [ "get_settings", "save_settings", "get_server_url", "set_server_url"
  , "toggle_fullscreen", "open_settings", "open_main_devtools"
  , "open_popup_window", "close_popup_window", "print_page"
  , "open_in_browser", "open_print_window" ]

/-- The thirteen operations the specification (section 6) claims the
core exposes to the host. -/
def spec_claimed_operations : List String :=
  [ "list_products", "get_product_by_code", "search_products"
  , "replace_products", "list_clients", "replace_clients"
  , "enqueue_sale", "list_pending_sales", "mark_sale_synced"
  , "mark_sale_failed", "products_count", "pending_sales_count"
  , "update_product_stock" ]

/-! ## Base64 encoder (main.rs lines 252-294)

The Rust Base64Encoder::write processes the input bytes in chunks of
three, mapping each chunk to four output symbols through the 64-symbol
alphabet, padding the last group with one or two = signs when the final
chunk has two or one bytes. base64_encode feeds the whole UTF-8 byte
sequence of the input string through write_all. Input strings are
modelled by their byte sequence: a List Nat whose elements are below
256. -/

/-- The encoder alphabet (main.rs line 274). -/
def b64chars : List Char :=
  [ 'A','B','C','D','E','F','G','H','I','J','K','L','M'
  , 'N','O','P','Q','R','S','T','U','V','W','X','Y','Z'
  , 'a','b','c','d','e','f','g','h','i','j','k','l','m'
  , 'n','o','p','q','r','s','t','u','v','w','x','y','z'
  , '0','1','2','3','4','5','6','7','8','9','+','/' ]

/-- ALPHABET[n] of the Rust encoder; total by a default ('?' is never
reached: every index produced by the encoder is below 64). -/
def b64char (n : Nat) : Char :=
  b64chars.getD n '?'

/-- Embeds base64_encode / Base64Encoder::write (main.rs lines 252-294):
chunks of three bytes; the bit operations b0 >> 2, ((b0 and 3) << 4) or
(b1 >> 4), ((b1 and 15) << 2) or (b2 >> 6), b2 and 63 are written with
division and remainder (for b0, b1, b2 < 256 the or-ed halves never
overlap, so or is addition). -/
def base64_encode : List Nat → List Char
  | [] => []
  | [b0] =>
    [b64char (b0 / 4), b64char (b0 % 4 * 16), '=', '=']
  | [b0, b1] =>
    [b64char (b0 / 4), b64char (b0 % 4 * 16 + b1 / 16), b64char (b1 % 16 * 4), '=']
  | b0 :: b1 :: b2 :: rest =>
    b64char (b0 / 4) :: b64char (b0 % 4 * 16 + b1 / 16) ::
    b64char (b1 % 16 * 4 + b2 / 64) :: b64char (b2 % 64) :: base64_encode rest

/-- Index of a symbol in the alphabet, for the decoding direction. -/
def b64index (c : Char) : Nat :=
  b64chars.indexOf c

/-- Standard Base64 decoding of a padded symbol stream, defined from the
RFC 4648 layout (spec side of the round-trip claim, not taken from the
repository, which only encodes). -/
def base64_decode : List Char → List Nat
  | c0 :: c1 :: c2 :: c3 :: rest =>
    if c2 = '=' then
      [b64index c0 * 4 + b64index c1 / 16]
    else if c3 = '=' then
      [ b64index c0 * 4 + b64index c1 / 16
      , b64index c1 % 16 * 16 + b64index c2 / 4 ]
    else
      (b64index c0 * 4 + b64index c1 / 16) ::
      (b64index c1 % 16 * 16 + b64index c2 / 4) ::
      (b64index c2 % 4 * 64 + b64index c3) :: base64_decode rest
  | _ => []

/-! ## Local store data model

The rows of the products, clients and offline_sales tables, with the
columns of the schema created by init_database (database.rs). NULL-able
columns become Option fields; INTEGER flags become Bool; REAL amounts
become Int (see the header note); TEXT timestamps become Nat instants.
-/

/-- A row of the products table (database.rs lines 21-43). -/
structure Product where
  id : Nat
  code : String
  name : String
  price : Int
  cost : Option Int
  category_id : Option Nat
  brand_id : Option Nat
  unit_id : Option Nat
  sale_unit_id : Option Nat
  tax_method : Option String
  tax_percent : Int
  discount : Int
  discount_method : Option String
  image : Option String
  is_service : Bool
  stock_qty : Int
  min_stock : Int
  updated_at : Nat
deriving DecidableEq, Repr

/-- A row of the clients table (database.rs lines 58-69). -/
structure Client where
  id : Nat
  name : String
  phone : Option String
  email : Option String
  address : Option String
  tax_number : Option String
  updated_at : Nat
deriving DecidableEq, Repr

/-- The lifecycle status of an offline sale (offline_sales.status,
database.rs line 116; spec section 3). -/
inductive SaleStatus
  | pending
  | synced
  | failed
deriving DecidableEq, Repr

/-- A row of the offline_sales table (database.rs lines 103-123). -/
structure OfflineSaleEntry where
  id : Nat
  local_ref : String
  client_id : Option Nat
  warehouse_id : Nat
  grand_total : Int
  paid_amount : Int
  tax_amount : Int
  discount : Int
  payment_method_id : Nat
  details_json : String
  payments_json : String
  status : SaleStatus
  created_at : Nat
  synced_at : Option Nat
  server_sale_id : Option Nat
  error_message : Option String
deriving DecidableEq, Repr

/-- The caller-supplied part of a sale enqueue: every offline_sales
column except the store-assigned id and the columns the store fills in
(status, created_at, synced_at, server_sale_id, error_message). -/
structure SalePayload where
  local_ref : String
  client_id : Option Nat
  warehouse_id : Nat
  grand_total : Int
  paid_amount : Int
  tax_amount : Int
  discount : Int
  payment_method_id : Nat
  details_json : String
  payments_json : String
deriving DecidableEq, Repr

/-- The store error taxonomy (spec section 7) restricted to what the
modelled operations can raise. -/
inductive StoreError
  | duplicateIdempotencyKey
  | transactionFailure
  | invalidTransition
deriving DecidableEq, Repr

/-- The mutable state of the local store: the cached catalog mirrors,
the offline sale queue, and the AUTOINCREMENT counter for
offline_sales.id. The audit log and the remaining lookup tables are
untouched by every claim under verification and are omitted. -/
structure Store where
  products : List Product
  clients : List Client
  sales : List OfflineSaleEntry
  next_id : Nat
deriving DecidableEq, Repr

/-- The store as created by init_database: all tables empty. -/
def emptyStore : Store :=
  { products := [], clients := [], sales := [], next_id := 1 }

/-! ## Modelled store operations

The repository contains only the schema for these; the operations
themselves are described by the specification (section 4.1) and are
modelled from it over the schema's constraints. -/

/-- Modelled from the spec: the row-by-row bulk insert inside
replace_products. The accumulator is the table content so far; an
insert fails (none) exactly when it violates a products constraint of
the schema: duplicate code (UNIQUE, database.rs line 24) or duplicate
id (PRIMARY KEY, line 23). -/
def insertProducts (acc : List Product) : List Product → Option (List Product)
  | [] => some acc
  | p :: rest =>
    if acc.any (fun q => q.code == p.code || q.id == p.id) then none
    else insertProducts (acc ++ [p]) rest

/-- Modelled from the spec: the row-by-row bulk insert inside
replace_clients; an insert fails exactly on a duplicate id (PRIMARY
KEY, database.rs line 60). -/
def insertClients (acc : List Client) : List Client → Option (List Client)
  | [] => some acc
  | c :: rest =>
    if acc.any (fun d => d.id == c.id) then none
    else insertClients (acc ++ [c]) rest

/-- Modelled from the spec: replace_products (section 4.1) - within one
transaction, delete all rows then bulk-insert the snapshot; on any
insert failure the whole transaction rolls back, leaving the store
unchanged; on success the inserted count is returned. The operation is
not implemented in the repository (only the schema is). -/
def replace_products (st : Store) (snapshot : List Product) :
    Store × Except StoreError Nat :=
  match insertProducts [] snapshot with
  | some rows => ({ st with products := rows }, Except.ok rows.length)
  | none => (st, Except.error StoreError.transactionFailure)

/-- Modelled from the spec: replace_clients (section 4.1), the client
counterpart of replace_products. -/
def replace_clients (st : Store) (snapshot : List Client) :
    Store × Except StoreError Nat :=
  match insertClients [] snapshot with
  | some rows => ({ st with clients := rows }, Except.ok rows.length)
  | none => (st, Except.error StoreError.transactionFailure)

/-- The offline_sales row built by an enqueue at instant now: status
pending, created_at now, and the synced-side columns NULL (schema
defaults, database.rs lines 116-120). -/
def mkSaleEntry (id : Nat) (p : SalePayload) (now : Nat) : OfflineSaleEntry :=
  { id := id
  , local_ref := p.local_ref
  , client_id := p.client_id
  , warehouse_id := p.warehouse_id
  , grand_total := p.grand_total
  , paid_amount := p.paid_amount
  , tax_amount := p.tax_amount
  , discount := p.discount
  , payment_method_id := p.payment_method_id
  , details_json := p.details_json
  , payments_json := p.payments_json
  , status := SaleStatus.pending
  , created_at := now
  , synced_at := none
  , server_sale_id := none
  , error_message := none }

/-- Modelled from the spec: enqueue_sale (section 4.1) - inserts the
payload with status pending and the current timestamp; fails with
DuplicateIdempotencyKey, leaving the store unchanged, when a row with
the same local_ref already exists (UNIQUE, database.rs line 106). The
operation is not implemented in the repository (only the schema is). -/
def enqueue_sale (st : Store) (p : SalePayload) (now : Nat) :
    Store × Except StoreError Nat :=
  if st.sales.any (fun e => e.local_ref == p.local_ref) then
    (st, Except.error StoreError.duplicateIdempotencyKey)
  else
    ({ st with
       sales := st.sales ++ [mkSaleEntry st.next_id p now]
     , next_id := st.next_id + 1 },
     Except.ok st.next_id)

/-- An UPDATE ... WHERE id = ? over the sale queue: rewrites the first
row carrying the id (id is the PRIMARY KEY, so at most one row ever
matches). -/
def updateSaleById (id : Nat) (g : OfflineSaleEntry → OfflineSaleEntry) :
    List OfflineSaleEntry → List OfflineSaleEntry
  | [] => []
  | e :: rest =>
    if e.id == id then g e :: rest else e :: updateSaleById id g rest

/-- Modelled from the spec: mark_synced (section 4.1) - sets status
synced, stamps the synced time, stores the server id. Reapplying it to
an already-synced row with the same server id is an accepted no-op;
applying it to a missing row, to a failed row, or with a different
server id than an already-stored one is rejected and leaves the store
unchanged (spec: must not silently overwrite; status transitions only
from pending). Not implemented in the repository. -/
def mark_synced (st : Store) (id : Nat) (server_sale_id : Nat) (now : Nat) :
    Store × Except StoreError Unit :=
  match st.sales.find? (fun e => e.id == id) with
  | none => (st, Except.error StoreError.invalidTransition)
  | some e =>
    match e.status with
    | SaleStatus.pending =>
      ({ st with
         sales := updateSaleById id
           (fun r => { r with
              status := SaleStatus.synced
            , synced_at := some now
            , server_sale_id := some server_sale_id }) st.sales },
       Except.ok ())
    | SaleStatus.synced =>
      if e.server_sale_id == some server_sale_id then (st, Except.ok ())
      else (st, Except.error StoreError.invalidTransition)
    | SaleStatus.failed => (st, Except.error StoreError.invalidTransition)

/-- Modelled from the spec: mark_failed (section 4.1) - sets status
failed and stores the message on a pending row; the row is retained,
never deleted. Applying it to a missing or non-pending row is rejected
(spec: status transitions only pending to synced or pending to failed).
Not implemented in the repository. -/
def mark_failed (st : Store) (id : Nat) (msg : String) :
    Store × Except StoreError Unit :=
  match st.sales.find? (fun e => e.id == id) with
  | none => (st, Except.error StoreError.invalidTransition)
  | some e =>
    match e.status with
    | SaleStatus.pending =>
      ({ st with
         sales := updateSaleById id
           (fun r => { r with
              status := SaleStatus.failed
            , error_message := some msg }) st.sales },
       Except.ok ())
    | _ => (st, Except.error StoreError.invalidTransition)

/-- Modelled from the spec: update_stock (section 4.1) - point update
of one product's stock quantity plus timestamp. Not implemented in the
repository. -/
def update_stock (st : Store) (product_id : Nat) (qty : Int) (now : Nat) :
    Store × Except StoreError Unit :=
  ({ st with
     products := st.products.map
       (fun p => if p.id == product_id then
          { p with stock_qty := qty, updated_at := now } else p) },
   Except.ok ())

/-- Insertion of a product into a name-sorted list, for the ORDER BY
name of the read queries. -/
def insertByName (p : Product) : List Product → List Product
  | [] => [p]
  | q :: qs => if p.name ≤ q.name then p :: q :: qs else q :: insertByName p qs

/-- Modelled from the spec: get_all_products (section 4.1) - the full
product set ordered by name. -/
def get_all_products (st : Store) : List Product :=
  st.products.foldr insertByName []

/-! ## Reachable store states

The write operations the host can drive, and the store state after a
sequence of them starting from the freshly-initialised (empty) store:
the reachable states every lifetime invariant is proved over. -/

/-- One store write operation with its arguments. -/
inductive StoreOp
  | replaceProductsOp (snapshot : List Product)
  | replaceClientsOp (snapshot : List Client)
  | enqueueSaleOp (p : SalePayload) (now : Nat)
  | markSyncedOp (id : Nat) (server_sale_id : Nat) (now : Nat)
  | markFailedOp (id : Nat) (msg : String)
  | updateStockOp (product_id : Nat) (qty : Int) (now : Nat)
deriving DecidableEq, Repr

/-- The store state after one operation (discarding the result). -/
def stepOp (st : Store) : StoreOp → Store
  | StoreOp.replaceProductsOp snapshot => (replace_products st snapshot).1
  | StoreOp.replaceClientsOp snapshot => (replace_clients st snapshot).1
  | StoreOp.enqueueSaleOp p now => (enqueue_sale st p now).1
  | StoreOp.markSyncedOp id sid now => (mark_synced st id sid now).1
  | StoreOp.markFailedOp id msg => (mark_failed st id msg).1
  | StoreOp.updateStockOp pid qty now => (update_stock st pid qty now).1

/-- The store state after a sequence of operations from the empty
store. -/
def runOps (ops : List StoreOp) : Store :=
  ops.foldl stepOp emptyStore

/-- Every product of the snapshot an operation supplies (if any) has a
nonnegative price: the side condition under which the price half of the
product invariant is preserved, since the schema itself never checks
prices. -/
def snapshotPricesNonneg : StoreOp → Prop
  | StoreOp.replaceProductsOp snapshot => ∀ q ∈ snapshot, 0 ≤ q.price
  | _ => True

/-! ## The schema created by init_database (database.rs lines 14-157)

Each CREATE TABLE statement is transcribed column by column: the column
name and its declared NOT NULL, UNIQUE, PRIMARY KEY and DEFAULT
clauses. A PRIMARY KEY column is recorded as primaryKey, unique and
notNull (SQLite enforces uniqueness of the rowid-aliased key). -/

/-- One column of a CREATE TABLE statement. -/
structure ColumnDef where
  name : String
  notNull : Bool
  unique : Bool
  primaryKey : Bool
  hasDefault : Bool
deriving DecidableEq, Repr

/-- Short constructor: name, NOT NULL, UNIQUE, PRIMARY KEY, DEFAULT. -/
def col (name : String) (notNull unique primaryKey hasDefault : Bool) : ColumnDef :=
  { name := name, notNull := notNull, unique := unique
  , primaryKey := primaryKey, hasDefault := hasDefault }

/-- Columns of products (database.rs lines 22-41). -/
def productsColumns : List ColumnDef :=
  [ col "id" true true true false
  , col "code" true true false false
  , col "name" true false false false
  , col "price" true false false true
  , col "cost" false false false false
  , col "category_id" false false false false
  , col "brand_id" false false false false
  , col "unit_id" false false false false
  , col "sale_unit_id" false false false false
  , col "tax_method" false false false false
  , col "tax_percent" false false false true
  , col "discount" false false false true
  , col "discount_method" false false false false
  , col "image" false false false false
  , col "is_service" false false false true
  , col "stock_qty" false false false true
  , col "min_stock" false false false true
  , col "updated_at" true false false true ]

/-- Columns of clients (database.rs lines 59-67). -/
def clientsColumns : List ColumnDef :=
  [ col "id" true true true false
  , col "name" true false false false
  , col "phone" false false false false
  , col "email" false false false false
  , col "address" false false false false
  , col "tax_number" false false false false
  , col "updated_at" true false false true ]

/-- Columns of categories (database.rs lines 73-78). -/
def categoriesColumns : List ColumnDef :=
  [ col "id" true true true false
  , col "name" true false false false
  , col "parent_id" false false false false
  , col "updated_at" true false false true ]

/-- Columns of warehouses (database.rs lines 84-88). -/
def warehousesColumns : List ColumnDef :=
  [ col "id" true true true false
  , col "name" true false false false
  , col "updated_at" true false false true ]

/-- Columns of payment_methods (database.rs lines 94-98). -/
def paymentMethodsColumns : List ColumnDef :=
  [ col "id" true true true false
  , col "name" true false false false
  , col "updated_at" true false false true ]

/-- Columns of offline_sales (database.rs lines 104-121). -/
def offlineSalesColumns : List ColumnDef :=
  [ col "id" true true true false
  , col "local_ref" true true false false
  , col "client_id" false false false false
  , col "warehouse_id" true false false false
  , col "grand_total" true false false false
  , col "paid_amount" true false false false
  , col "tax_amount" false false false true
  , col "discount" false false false true
  , col "payment_method_id" true false false false
  , col "details_json" true false false false
  , col "payments_json" true false false false
  , col "status" true false false true
  , col "created_at" true false false true
  , col "synced_at" false false false false
  , col "server_sale_id" false false false false
  , col "error_message" false false false false ]

/-- Columns of sync_log (database.rs lines 133-141). -/
def syncLogColumns : List ColumnDef :=
  [ col "id" true true true false
  , col "entity_type" true false false false
  , col "operation" true false false false
  , col "record_count" false false false true
  , col "status" true false false false
  , col "error_message" false false false false
  , col "created_at" true false false true ]

/-- Columns of settings (database.rs lines 147-151). -/
def settingsColumns : List ColumnDef :=
  [ col "key" true true true false
  , col "value" true false false false
  , col "updated_at" true false false true ]

/-- The tables created by init_database, in creation order
(database.rs lines 14-157). -/
def init_database_tables : List (String × List ColumnDef) :=
  [ ("products", productsColumns)
  , ("clients", clientsColumns)
  , ("categories", categoriesColumns)
  , ("warehouses", warehousesColumns)
  , ("payment_methods", paymentMethodsColumns)
  , ("offline_sales", offlineSalesColumns)
  , ("sync_log", syncLogColumns)
  , ("settings", settingsColumns) ]

/-- Lookup of a column in a column list. -/
def colOf (cols : List ColumnDef) (n : String) : Option ColumnDef :=
  cols.find? (fun c => c.name == n)

/-! ## Sample data for concrete witnesses -/

/-- A sample sale payload. -/
def samplePayload : SalePayload :=
  { local_ref := "X1"
  , client_id := none
  , warehouse_id := 1
  , grand_total := 150
  , paid_amount := 150
  , tax_amount := 0
  , discount := 0
  , payment_method_id := 1
  , details_json := "[]"
  , payments_json := "[]" }

/-- A second sample sale payload with a distinct idempotency key. -/
def samplePayloadB : SalePayload :=
  { samplePayload with local_ref := "B1", grand_total := 75, paid_amount := 75 }

/-- A sample product row. -/
def sampleProduct : Product :=
  { id := 1
  , code := "P1"
  , name := "Water"
  , price := 10
  , cost := some 7
  , category_id := none
  , brand_id := none
  , unit_id := none
  , sale_unit_id := none
  , tax_method := none
  , tax_percent := 0
  , discount := 0
  , discount_method := none
  , image := none
  , is_service := false
  , stock_qty := 5
  , min_stock := 0
  , updated_at := 0 }

/-- A product row with a negative price: nothing in the schema rejects
it (price is only NOT NULL DEFAULT 0, with no CHECK constraint). -/
def negativePriceProduct : Product :=
  { sampleProduct with id := 2, code := "P2", price := -1 }

/-- A snapshot whose bulk insert fails: the second row repeats the
first row's UNIQUE code. -/
def dupCodeSnapshot : List Product :=
  [ sampleProduct, { sampleProduct with id := 3 } ]

/-- A snapshot whose bulk insert succeeds. -/
def goodSnapshot : List Product :=
  [ sampleProduct ]

/-- The queue entry produced by enqueueing samplePayload at instant 5
and marking it synced with server id 77 at instant 6. -/
def sampleSyncedEntry : OfflineSaleEntry :=
  { mkSaleEntry 1 samplePayload 5 with
    status := SaleStatus.synced
  , synced_at := some 6
  , server_sale_id := some 77 }

/-- A sample settings value distinct from the default. -/
def sampleSettings : AppSettings :=
  { server_url := "http://example.test/"
  , window_width := 800
  , window_height := 600
  , fullscreen := true }

/-! ## Theorems -/

/-- C9: load_settings is total and never fails: when the file does not
exist or cannot be read (no content), or its content does not parse as
AppSettings JSON, it returns AppSettings::default() - server_url
"https://po.megacaresa.com/", window 1400 by 900, fullscreen false -
and when parsing succeeds it returns the parsed settings. -/
theorem load_settings_total (file : Option String)
    (parseJson : String → Option AppSettings) :
    AppSettings.defaultSettings =
      { server_url := "https://po.megacaresa.com/"
      , window_width := 1400, window_height := 900, fullscreen := false } ∧
    (file = none → load_settings file parseJson = AppSettings.defaultSettings) ∧
    (∀ c, file = some c → parseJson c = none →
      load_settings file parseJson = AppSettings.defaultSettings) ∧
    (∀ c s, file = some c → parseJson c = some s →
      load_settings file parseJson = s) := by
  refine ⟨rfl, ?_, ?_, ?_⟩
  · rintro rfl; rfl
  · rintro c rfl hp; simp [load_settings, hp]
  · rintro c s rfl hp; simp [load_settings, hp]

/-- Witness for C9 at a concrete unreadable file and a concrete
unparseable content. -/
theorem load_settings_total_witness :
    load_settings none (fun _ => none) = AppSettings.defaultSettings ∧
    load_settings (some "not json") (fun _ => none) =
      AppSettings.defaultSettings :=
  ⟨(load_settings_total none (fun _ => none)).2.1 rfl,
   (load_settings_total (some "not json") (fun _ => none)).2.2.1 "not json" rfl rfl⟩

/-- C10: after save_settings(s), get_settings() returns s and
get_server_url() returns s.server_url, even when the file write fails:
the in-memory state is replaced before the write and is not rolled back
on failure. -/
theorem save_settings_in_memory (st : AppState) (s : AppSettings)
    (writeOk : Bool) :
    get_settings (save_settings st s writeOk).1 = s ∧
    get_server_url (save_settings st s writeOk).1 = s.server_url ∧
    (writeOk = false →
      (save_settings st s writeOk).2 = Except.error "Failed to write settings" ∧
      get_settings (save_settings st s writeOk).1 = s) := by
  refine ⟨rfl, rfl, ?_⟩
  rintro rfl
  exact ⟨rfl, rfl⟩

/-- Witness for C10: a concrete failing write still leaves the new
settings visible to get_settings. -/
theorem save_settings_in_memory_witness :
    (save_settings { settings := AppSettings.defaultSettings }
        sampleSettings false).2 = Except.error "Failed to write settings" ∧
    get_settings (save_settings { settings := AppSettings.defaultSettings }
        sampleSettings false).1 = sampleSettings :=
  (save_settings_in_memory { settings := AppSettings.defaultSettings }
    sampleSettings false).2.2 rfl

/-- C4 counterexample: the claim names list_products (and twelve more
catalog/sales operations) as exposed to the host, but the invoke
handler of main.rs registers none of them. -/
theorem exposed_ops_counterexample :
    "list_products" ∉ invoke_handler_commands ∧
    "enqueue_sale" ∉ invoke_handler_commands ∧
    "replace_products" ∉ invoke_handler_commands := by
  decide

/-- C4 amended: the operations the host actually exposes are exactly
the twelve settings/window/print commands of the invoke handler
(main.rs lines 825-838); none of the thirteen catalog/sales operations
named by the specification is among them. -/
theorem exposed_ops_amended :
    invoke_handler_commands.length = 12 ∧
    "get_settings" ∈ invoke_handler_commands ∧
    "save_settings" ∈ invoke_handler_commands ∧
    "get_server_url" ∈ invoke_handler_commands ∧
    "set_server_url" ∈ invoke_handler_commands ∧
    "toggle_fullscreen" ∈ invoke_handler_commands ∧
    "open_settings" ∈ invoke_handler_commands ∧
    "open_main_devtools" ∈ invoke_handler_commands ∧
    "open_popup_window" ∈ invoke_handler_commands ∧
    "close_popup_window" ∈ invoke_handler_commands ∧
    "print_page" ∈ invoke_handler_commands ∧
    "open_in_browser" ∈ invoke_handler_commands ∧
    "open_print_window" ∈ invoke_handler_commands ∧
    (∀ op ∈ spec_claimed_operations, op ∉ invoke_handler_commands) := by
  decide

/-- Witness for C4 amended at the concrete operation list_products. -/
theorem exposed_ops_amended_witness :
    "update_product_stock" ∉ invoke_handler_commands :=
  exposed_ops_amended.2.2.2.2.2.2.2.2.2.2.2.2.2 "update_product_stock" (by decide)

/-- C5: init_database creates exactly the eight tables products,
clients, categories, warehouses, payment_methods, offline_sales,
sync_log and settings, with the enumerated columns: in particular
products has id, a UNIQUE code, name, price (NOT NULL), an optional
cost, stock_qty and updated_at, and offline_sales has a UNIQUE
local_ref, status, created_at, an optional synced_at, an optional
server_sale_id and an optional error_message. -/
theorem init_database_schema :
    init_database_tables.map Prod.fst =
      [ "products", "clients", "categories", "warehouses"
      , "payment_methods", "offline_sales", "sync_log", "settings" ] ∧
    productsColumns.map ColumnDef.name =
      [ "id", "code", "name", "price", "cost", "category_id", "brand_id"
      , "unit_id", "sale_unit_id", "tax_method", "tax_percent", "discount"
      , "discount_method", "image", "is_service", "stock_qty", "min_stock"
      , "updated_at" ] ∧
    colOf productsColumns "code" = some (col "code" true true false false) ∧
    colOf productsColumns "price" = some (col "price" true false false true) ∧
    colOf productsColumns "cost" = some (col "cost" false false false false) ∧
    clientsColumns.map ColumnDef.name =
      [ "id", "name", "phone", "email", "address", "tax_number", "updated_at" ] ∧
    categoriesColumns.map ColumnDef.name =
      [ "id", "name", "parent_id", "updated_at" ] ∧
    warehousesColumns.map ColumnDef.name = [ "id", "name", "updated_at" ] ∧
    paymentMethodsColumns.map ColumnDef.name = [ "id", "name", "updated_at" ] ∧
    offlineSalesColumns.map ColumnDef.name =
      [ "id", "local_ref", "client_id", "warehouse_id", "grand_total"
      , "paid_amount", "tax_amount", "discount", "payment_method_id"
      , "details_json", "payments_json", "status", "created_at", "synced_at"
      , "server_sale_id", "error_message" ] ∧
    colOf offlineSalesColumns "local_ref" =
      some (col "local_ref" true true false false) ∧
    colOf offlineSalesColumns "status" =
      some (col "status" true false false true) ∧
    colOf offlineSalesColumns "synced_at" =
      some (col "synced_at" false false false false) ∧
    colOf offlineSalesColumns "server_sale_id" =
      some (col "server_sale_id" false false false false) ∧
    colOf offlineSalesColumns "error_message" =
      some (col "error_message" false false false false) ∧
    syncLogColumns.map ColumnDef.name =
      [ "id", "entity_type", "operation", "record_count", "status"
      , "error_message", "created_at" ] ∧
    settingsColumns.map ColumnDef.name = [ "key", "value", "updated_at" ] := by
  decide

/-- C7: the row inserted by enqueue_sale has status pending and
created_at equal to the insertion-time timestamp (and no server sale id
yet); no other initial status is possible. -/
theorem enqueue_sets_pending (st : Store) (p : SalePayload) (now : Nat)
    (h : st.sales.any (fun e => e.local_ref == p.local_ref) = false) :
    (enqueue_sale st p now).1.sales =
      st.sales ++ [mkSaleEntry st.next_id p now] ∧
    (mkSaleEntry st.next_id p now).status = SaleStatus.pending ∧
    (mkSaleEntry st.next_id p now).created_at = now ∧
    (mkSaleEntry st.next_id p now).server_sale_id = none := by
  refine ⟨?_, rfl, rfl, rfl⟩
  simp [enqueue_sale, h]

/-- Witness for C7 at a concrete enqueue into the empty store. -/
theorem enqueue_sets_pending_witness :
    (enqueue_sale emptyStore samplePayload 5).1.sales =
      emptyStore.sales ++ [mkSaleEntry emptyStore.next_id samplePayload 5] ∧
    (mkSaleEntry emptyStore.next_id samplePayload 5).status =
      SaleStatus.pending ∧
    (mkSaleEntry emptyStore.next_id samplePayload 5).created_at = 5 ∧
    (mkSaleEntry emptyStore.next_id samplePayload 5).server_sale_id = none :=
  enqueue_sets_pending emptyStore samplePayload 5 (by decide)

/-! ### Base64 lemmas (C8) -/

/-- Every alphabet index below 64 hits a symbol of the alphabet. -/
theorem b64char_mem : ∀ n < 64, b64char n ∈ b64chars := by decide

/-- No alphabet symbol is the padding sign. -/
theorem b64char_ne_pad : ∀ n < 64, b64char n ≠ '=' := by decide

/-- Decoding a symbol recovers its index, for indices below 64. -/
theorem b64index_b64char : ∀ n < 64, b64index (b64char n) = n := by decide

/-- The encoder output length is four symbols per started three-byte
chunk. -/
theorem base64_encode_length :
    ∀ s : List Nat, (base64_encode s).length = 4 * ((s.length + 2) / 3)
  | [] => rfl
  | [_] => by simp [base64_encode]
  | [_, _] => by simp [base64_encode]
  | _ :: _ :: _ :: rest => by
    have ih := base64_encode_length rest
    simp only [base64_encode, List.length_cons, ih]
    omega

/-- Every output symbol is an alphabet symbol or the padding sign,
whenever every input byte is below 256. -/
theorem base64_encode_alphabet :
    ∀ s : List Nat, (∀ b ∈ s, b < 256) →
      ∀ c ∈ base64_encode s, c ∈ b64chars ∨ c = '='
  | [], _, c, hc => by simp [base64_encode] at hc
  | [b0], h, c, hc => by
    have hb0 : b0 < 256 := h b0 (by simp)
    simp [base64_encode] at hc
    rcases hc with rfl | rfl | rfl
    · exact Or.inl (b64char_mem _ (by omega))
    · exact Or.inl (b64char_mem _ (by omega))
    · exact Or.inr rfl
  | [b0, b1], h, c, hc => by
    have hb0 : b0 < 256 := h b0 (by simp)
    have hb1 : b1 < 256 := h b1 (by simp)
    simp [base64_encode] at hc
    rcases hc with rfl | rfl | rfl | rfl
    · exact Or.inl (b64char_mem _ (by omega))
    · exact Or.inl (b64char_mem _ (by omega))
    · exact Or.inl (b64char_mem _ (by omega))
    · exact Or.inr rfl
  | b0 :: b1 :: b2 :: rest, h, c, hc => by
    have hb0 : b0 < 256 := h b0 (by simp)
    have hb1 : b1 < 256 := h b1 (by simp)
    have hb2 : b2 < 256 := h b2 (by simp)
    have ih := base64_encode_alphabet rest
      (fun b hb => h b (by simp [hb])) c
    simp only [base64_encode, List.mem_cons] at hc
    rcases hc with rfl | rfl | rfl | rfl | hc
    · exact Or.inl (b64char_mem _ (by omega))
    · exact Or.inl (b64char_mem _ (by omega))
    · exact Or.inl (b64char_mem _ (by omega))
    · exact Or.inl (b64char_mem _ (by omega))
    · exact ih hc

/-- Standard Base64 decoding inverts the encoder on byte sequences. -/
theorem base64_roundtrip :
    ∀ s : List Nat, (∀ b ∈ s, b < 256) →
      base64_decode (base64_encode s) = s
  | [], _ => rfl
  | [b0], h => by
    have hb0 : b0 < 256 := h b0 (by simp)
    have e0 := b64index_b64char (b0 / 4) (by omega)
    have e1 := b64index_b64char (b0 % 4 * 16) (by omega)
    simp [base64_encode, base64_decode, e0, e1]
    omega
  | [b0, b1], h => by
    have hb0 : b0 < 256 := h b0 (by simp)
    have hb1 : b1 < 256 := h b1 (by simp)
    have e0 := b64index_b64char (b0 / 4) (by omega)
    have e1 := b64index_b64char (b0 % 4 * 16 + b1 / 16) (by omega)
    have e2 := b64index_b64char (b1 % 16 * 4) (by omega)
    have n2 := b64char_ne_pad (b1 % 16 * 4) (by omega)
    simp [base64_encode, base64_decode, e0, e1, e2, n2]
    omega
  | b0 :: b1 :: b2 :: rest, h => by
    have hb0 : b0 < 256 := h b0 (by simp)
    have hb1 : b1 < 256 := h b1 (by simp)
    have hb2 : b2 < 256 := h b2 (by simp)
    have ih := base64_roundtrip rest (fun b hb => h b (by simp [hb]))
    have e0 := b64index_b64char (b0 / 4) (by omega)
    have e1 := b64index_b64char (b0 % 4 * 16 + b1 / 16) (by omega)
    have e2 := b64index_b64char (b1 % 16 * 4 + b2 / 64) (by omega)
    have e3 := b64index_b64char (b2 % 64) (by omega)
    have n2 := b64char_ne_pad (b1 % 16 * 4 + b2 / 64) (by omega)
    have n3 := b64char_ne_pad (b2 % 64) (by omega)
    simp [base64_encode, base64_decode, e0, e1, e2, e3, n2, n3, ih]
    omega

/-- C8: base64_encode is total (a terminating function, never
panicking) and returns the standard Base64 encoding of the input byte
sequence: the empty input yields the empty output, the output length is
four symbols per started three-byte chunk, every output symbol is drawn
from the 64-symbol alphabet or is the padding sign, and standard Base64
decoding recovers the input bytes. -/
theorem base64_encode_correct (s : List Nat) (h : ∀ b ∈ s, b < 256) :
    base64_encode [] = [] ∧
    (base64_encode s).length = 4 * ((s.length + 2) / 3) ∧
    (∀ c ∈ base64_encode s, c ∈ b64chars ∨ c = '=') ∧
    base64_decode (base64_encode s) = s :=
  ⟨rfl, base64_encode_length s, base64_encode_alphabet s h,
   base64_roundtrip s h⟩

/-- Witness for C8 on the concrete bytes of the string Man, whose
standard encoding is TWFu. -/
theorem base64_encode_correct_witness :
    base64_encode [] = [] ∧
    (base64_encode [77, 97, 110]).length = 4 ∧
    base64_decode (base64_encode [77, 97, 110]) = [77, 97, 110] ∧
    base64_encode [77, 97, 110] = ['T', 'W', 'F', 'u'] := by
  have h := base64_encode_correct [77, 97, 110] (by decide)
  exact ⟨h.1, h.2.1, h.2.2.2, by decide⟩

/-! ### Store lemmas -/

/-- A successful bulk product insert inserts exactly the snapshot after
the accumulator. -/
theorem insertProducts_eq :
    ∀ (l acc rows : List Product), insertProducts acc l = some rows →
      rows = acc ++ l
  | [], acc, rows, h => by
    simp [insertProducts] at h
    simp [h.symm]
  | p :: rest, acc, rows, h => by
    by_cases hgd : (acc.any fun q => q.code == p.code || q.id == p.id) = true
    · simp [insertProducts, hgd] at h
    · simp only [insertProducts, hgd, if_neg, Bool.not_eq_true] at h
      have hr := insertProducts_eq rest (acc ++ [p]) rows h
      simp [hr]

/-- A successful bulk client insert inserts exactly the snapshot after
the accumulator. -/
theorem insertClients_eq :
    ∀ (l acc rows : List Client), insertClients acc l = some rows →
      rows = acc ++ l
  | [], acc, rows, h => by
    simp [insertClients] at h
    simp [h.symm]
  | c :: rest, acc, rows, h => by
    by_cases hgd : (acc.any fun d => d.id == c.id) = true
    · simp [insertClients, hgd] at h
    · simp only [insertClients, hgd, if_neg, Bool.not_eq_true] at h
      have hr := insertClients_eq rest (acc ++ [c]) rows h
      simp [hr]

/-- replace_products leaves the sale queue untouched. -/
theorem sales_replace_products (st : Store) (snapshot : List Product) :
    ((replace_products st snapshot).1).sales = st.sales := by
  unfold replace_products
  cases insertProducts [] snapshot <;> rfl

/-- replace_clients leaves the sale queue untouched. -/
theorem sales_replace_clients (st : Store) (snapshot : List Client) :
    ((replace_clients st snapshot).1).sales = st.sales := by
  unfold replace_clients
  cases insertClients [] snapshot <;> rfl

/-- update_stock leaves the sale queue untouched. -/
theorem sales_update_stock (st : Store) (pid : Nat) (qty : Int) (now : Nat) :
    ((update_stock st pid qty now).1).sales = st.sales :=
  rfl

/-- replace_clients leaves the product mirror untouched. -/
theorem products_replace_clients (st : Store) (snapshot : List Client) :
    ((replace_clients st snapshot).1).products = st.products := by
  unfold replace_clients
  cases insertClients [] snapshot <;> rfl

/-- enqueue_sale leaves the product mirror untouched. -/
theorem products_enqueue_sale (st : Store) (p : SalePayload) (now : Nat) :
    ((enqueue_sale st p now).1).products = st.products := by
  unfold enqueue_sale
  by_cases hg : (st.sales.any fun e => e.local_ref == p.local_ref) = true <;>
    simp [hg]

/-- mark_synced leaves the product mirror untouched. -/
theorem products_mark_synced (st : Store) (id sid now : Nat) :
    ((mark_synced st id sid now).1).products = st.products := by
  unfold mark_synced
  repeat' split
  all_goals rfl

/-- mark_failed leaves the product mirror untouched. -/
theorem products_mark_failed (st : Store) (id : Nat) (msg : String) :
    ((mark_failed st id msg).1).products = st.products := by
  unfold mark_failed
  repeat' split
  all_goals rfl

/-- Membership after an update-by-id: either an untouched original row,
or the rewritten image of the row find? locates. -/
theorem mem_updateSaleById (id : Nat) (g : OfflineSaleEntry → OfflineSaleEntry) :
    ∀ (l : List OfflineSaleEntry) (e0 : OfflineSaleEntry),
      l.find? (fun e => e.id == id) = some e0 →
      ∀ x ∈ updateSaleById id g l, x ∈ l ∨ x = g e0
  | [], e0, hf => by simp at hf
  | a :: rest, e0, hf => by
    cases ha : (a.id == id) with
    | true =>
      have hae : a = e0 := by
        have h1 := List.find?_cons_of_pos (p := fun e => e.id == id) rest ha
        rw [h1] at hf
        exact Option.some.inj hf
      subst hae
      intro x hx
      simp only [updateSaleById, ha, if_true, List.mem_cons] at hx
      rcases hx with rfl | hx
      · exact Or.inr rfl
      · exact Or.inl (List.mem_cons_of_mem _ hx)
    | false =>
      have hf2 : rest.find? (fun e => e.id == id) = some e0 := by
        have hne : ¬ ((fun e => e.id == id) a = true) := by simp [ha]
        have h1 := List.find?_cons_of_neg (p := fun e => e.id == id) rest hne
        rw [h1] at hf
        exact hf
      intro x hx
      simp only [updateSaleById, ha, Bool.false_eq_true, if_false, List.mem_cons] at hx
      rcases hx with rfl | hx
      · exact Or.inl (List.mem_cons_self _ _)
      · rcases mem_updateSaleById id g rest e0 hf2 x hx with hm | hm
        · exact Or.inl (List.mem_cons_of_mem _ hm)
        · exact Or.inr hm

/-- An update-by-id whose rewrite keeps a field keeps the projection of
the whole queue to that field. -/
theorem updateSaleById_map_field {α : Type} (id : Nat)
    (g : OfflineSaleEntry → OfflineSaleEntry) (f : OfflineSaleEntry → α)
    (hg : ∀ e, f (g e) = f e) :
    ∀ l : List OfflineSaleEntry,
      (updateSaleById id g l).map f = l.map f
  | [] => rfl
  | a :: rest => by
    by_cases ha : (a.id == id) = true <;>
      simp [updateSaleById, ha, hg, updateSaleById_map_field id g f hg rest]

/-- An invariant preserved by every (suitably constrained) step holds
after every run from a state satisfying it. -/
theorem store_inv_run (Inv : Store → Prop) (Good : StoreOp → Prop)
    (hstep : ∀ st op, Inv st → Good op → Inv (stepOp st op)) :
    ∀ (ops : List StoreOp) (st : Store), Inv st → (∀ op ∈ ops, Good op) →
      Inv (List.foldl stepOp st ops)
  | [], _, h, _ => h
  | op :: rest, st, h, hg =>
    store_inv_run Inv Good hstep rest (stepOp st op)
      (hstep st op h (hg op (List.mem_cons_self op rest)))
      (fun o ho => hg o (List.mem_cons_of_mem op ho))

/-- C2: replace_products (and replace_clients) is all-or-nothing: on
success the mirror is exactly the snapshot and the inserted count is
returned; on any insert failure the transaction rolls back, the store
is unchanged, and get_all_products returns exactly the pre-replace
snapshot. -/
theorem replace_atomic (st : Store) (psnap : List Product)
    (csnap : List Client) :
    (∀ st1 err, replace_products st psnap = (st1, Except.error err) →
      st1 = st ∧ get_all_products st1 = get_all_products st) ∧
    (∀ st1 n, replace_products st psnap = (st1, Except.ok n) →
      st1.products = psnap ∧ n = psnap.length) ∧
    (∀ st1 err, replace_clients st csnap = (st1, Except.error err) →
      st1 = st) ∧
    (∀ st1 n, replace_clients st csnap = (st1, Except.ok n) →
      st1.clients = csnap ∧ n = csnap.length) := by
  refine ⟨?_, ?_, ?_, ?_⟩
  · intro st1 err hrep
    cases hins : insertProducts [] psnap with
    | some rows => simp [replace_products, hins] at hrep
    | none =>
      simp only [replace_products, hins, Prod.mk.injEq] at hrep
      exact ⟨hrep.1.symm ▸ rfl, hrep.1.symm ▸ rfl⟩
  · intro st1 n hrep
    cases hins : insertProducts [] psnap with
    | none => simp [replace_products, hins] at hrep
    | some rows =>
      have hr := insertProducts_eq psnap [] rows hins
      simp only [List.nil_append] at hr
      subst hr
      simp only [replace_products, hins, Prod.mk.injEq, Except.ok.injEq] at hrep
      refine ⟨?_, hrep.2.symm⟩
      rw [← hrep.1]
  · intro st1 err hrep
    cases hins : insertClients [] csnap with
    | some rows => simp [replace_clients, hins] at hrep
    | none =>
      simp only [replace_clients, hins, Prod.mk.injEq] at hrep
      exact hrep.1.symm
  · intro st1 n hrep
    cases hins : insertClients [] csnap with
    | none => simp [replace_clients, hins] at hrep
    | some rows =>
      have hr := insertClients_eq csnap [] rows hins
      simp only [List.nil_append] at hr
      subst hr
      simp only [replace_clients, hins, Prod.mk.injEq, Except.ok.injEq] at hrep
      refine ⟨?_, hrep.2.symm⟩
      rw [← hrep.1]

/-- Witness for C2: a concrete snapshot repeating a UNIQUE code makes
the replace fail and roll back on the concrete pre-state, and a
concrete valid snapshot is installed wholesale. -/
theorem replace_atomic_witness :
    (emptyStore = emptyStore ∧
      get_all_products emptyStore = get_all_products emptyStore) ∧
    ({ emptyStore with products := goodSnapshot }.products = goodSnapshot ∧
      (1 : Nat) = goodSnapshot.length) :=
  ⟨(replace_atomic emptyStore dupCodeSnapshot []).1 emptyStore
      StoreError.transactionFailure (by rfl),
   (replace_atomic emptyStore goodSnapshot []).2.1
      { emptyStore with products := goodSnapshot } 1 (by rfl)⟩

/-- The rewrite performed by mark_synced keeps every idempotency key. -/
theorem updateSaleById_refs_synced (id sid now : Nat)
    (l : List OfflineSaleEntry) :
    (updateSaleById id
        (fun r => { r with
           status := SaleStatus.synced
         , synced_at := some now
         , server_sale_id := some sid }) l).map OfflineSaleEntry.local_ref =
      l.map OfflineSaleEntry.local_ref :=
  updateSaleById_map_field id
    (fun r => { r with
       status := SaleStatus.synced
     , synced_at := some now
     , server_sale_id := some sid })
    OfflineSaleEntry.local_ref (fun _ => rfl) l

/-- The rewrite performed by mark_failed keeps every idempotency key. -/
theorem updateSaleById_refs_failed (id : Nat) (msg : String)
    (l : List OfflineSaleEntry) :
    (updateSaleById id
        (fun r => { r with
           status := SaleStatus.failed
         , error_message := some msg }) l).map OfflineSaleEntry.local_ref =
      l.map OfflineSaleEntry.local_ref :=
  updateSaleById_map_field id
    (fun r => { r with
       status := SaleStatus.failed
     , error_message := some msg })
    OfflineSaleEntry.local_ref (fun _ => rfl) l

/-- Each store step keeps the idempotency keys of the sale queue free
of duplicates. -/
theorem stepOp_refs_nodup (st : Store) (op : StoreOp)
    (h : (st.sales.map OfflineSaleEntry.local_ref).Nodup) :
    (((stepOp st op).sales).map OfflineSaleEntry.local_ref).Nodup := by
  cases op with
  | replaceProductsOp snapshot =>
    dsimp only [stepOp]
    simp only [sales_replace_products]
    exact h
  | replaceClientsOp snapshot =>
    dsimp only [stepOp]
    simp only [sales_replace_clients]
    exact h
  | updateStockOp pid qty now =>
    dsimp only [stepOp]
    simp only [sales_update_stock]
    exact h
  | enqueueSaleOp p now =>
    dsimp only [stepOp]
    cases hg : st.sales.any (fun e => e.local_ref == p.local_ref) with
    | true =>
      simp only [enqueue_sale, hg, if_true]
      exact h
    | false =>
      have hfresh : p.local_ref ∉ st.sales.map OfflineSaleEntry.local_ref := by
        intro hmem
        rcases List.mem_map.mp hmem with ⟨e, he, heq⟩
        have hx := List.any_eq_false.mp hg e he
        simp [heq] at hx
      simp only [enqueue_sale, hg, Bool.false_eq_true, if_false,
        List.map_append, List.map_cons, List.map_nil]
      refine h.append (by simp) ?_
      rw [List.disjoint_singleton]
      simpa [mkSaleEntry] using hfresh
  | markSyncedOp id sid now =>
    dsimp only [stepOp]
    unfold mark_synced
    repeat' split
    all_goals dsimp only
    all_goals
      first
        | exact h
        | (rw [updateSaleById_refs_synced]
           exact h)
  | markFailedOp id msg =>
    dsimp only [stepOp]
    unfold mark_failed
    repeat' split
    all_goals dsimp only
    all_goals
      first
        | exact h
        | (rw [updateSaleById_refs_failed]
           exact h)

/-- C1: enqueueing the same idempotency key twice stores exactly one
row carrying that key, the first call succeeding and the second call
returning DuplicateIdempotencyKey; and over the whole lifetime of the
store no two offline_sales rows ever share a local_ref. -/
theorem enqueue_sale_idempotent (st : Store) (p : SalePayload) (t1 t2 : Nat)
    (h : st.sales.countP (fun e => e.local_ref == p.local_ref) = 0) :
    (enqueue_sale st p t1).2 = Except.ok st.next_id ∧
    (enqueue_sale (enqueue_sale st p t1).1 p t2).2 =
      Except.error StoreError.duplicateIdempotencyKey ∧
    ((enqueue_sale (enqueue_sale st p t1).1 p t2).1).sales.countP
      (fun e => e.local_ref == p.local_ref) = 1 ∧
    (∀ ops : List StoreOp,
      ((runOps ops).sales.map OfflineSaleEntry.local_ref).Nodup) := by
  have hany : st.sales.any (fun e => e.local_ref == p.local_ref) = false :=
    List.any_eq_false.mpr (List.countP_eq_zero.mp h)
  have hcall1 : enqueue_sale st p t1 =
      ({ st with
         sales := st.sales ++ [mkSaleEntry st.next_id p t1]
       , next_id := st.next_id + 1 }, Except.ok st.next_id) := by
    rw [enqueue_sale, hany]
    rfl
  have hst1 : (enqueue_sale st p t1).1.sales =
      st.sales ++ [mkSaleEntry st.next_id p t1] := by
    rw [hcall1]
  have hany2 : ((enqueue_sale st p t1).1).sales.any
      (fun e => e.local_ref == p.local_ref) = true := by
    rw [hst1]
    refine List.any_eq_true.mpr
      ⟨mkSaleEntry st.next_id p t1, by simp, by simp [mkSaleEntry]⟩
  have hcall2 : enqueue_sale (enqueue_sale st p t1).1 p t2 =
      ((enqueue_sale st p t1).1,
        Except.error StoreError.duplicateIdempotencyKey) := by
    rw [enqueue_sale, hany2]
    rfl
  refine ⟨?_, ?_, ?_, ?_⟩
  · rw [hcall1]
  · rw [hcall2]
  · rw [hcall2]
    dsimp only
    rw [hst1, List.countP_append, h]
    simp [mkSaleEntry]
  · intro ops
    exact store_inv_run
      (fun s => ((s.sales).map OfflineSaleEntry.local_ref).Nodup)
      (fun _ => True)
      (fun s op hInv _ => stepOp_refs_nodup s op hInv)
      ops emptyStore (by simp [emptyStore]) (fun _ _ => trivial)

/-- Witness for C1: enqueueing the sample payload twice into the empty
store succeeds once, then reports the duplicate key, leaving one row. -/
theorem enqueue_sale_idempotent_witness :
    (enqueue_sale emptyStore samplePayload 1).2 =
      Except.ok emptyStore.next_id ∧
    (enqueue_sale (enqueue_sale emptyStore samplePayload 1).1
        samplePayload 2).2 =
      Except.error StoreError.duplicateIdempotencyKey ∧
    ((enqueue_sale (enqueue_sale emptyStore samplePayload 1).1
        samplePayload 2).1).sales.countP
      (fun e => e.local_ref == samplePayload.local_ref) = 1 :=
  ⟨(enqueue_sale_idempotent emptyStore samplePayload 1 2 (by rfl)).1,
   (enqueue_sale_idempotent emptyStore samplePayload 1 2 (by rfl)).2.1,
   (enqueue_sale_idempotent emptyStore samplePayload 1 2 (by rfl)).2.2.1⟩

/-- Each store step preserves the server-id/status invariant of the
sale queue. -/
theorem stepOp_sale_inv (st : Store) (op : StoreOp)
    (h : ∀ e ∈ st.sales,
      (e.server_sale_id.isSome = true ↔ e.status = SaleStatus.synced)) :
    ∀ e ∈ (stepOp st op).sales,
      (e.server_sale_id.isSome = true ↔ e.status = SaleStatus.synced) := by
  cases op with
  | replaceProductsOp snapshot =>
    dsimp only [stepOp]
    simp only [sales_replace_products]
    exact h
  | replaceClientsOp snapshot =>
    dsimp only [stepOp]
    simp only [sales_replace_clients]
    exact h
  | updateStockOp pid qty now =>
    dsimp only [stepOp]
    simp only [sales_update_stock]
    exact h
  | enqueueSaleOp p now =>
    dsimp only [stepOp]
    cases hg : st.sales.any (fun e => e.local_ref == p.local_ref) with
    | true =>
      simp only [enqueue_sale, hg, if_true]
      exact h
    | false =>
      simp only [enqueue_sale, hg, Bool.false_eq_true, if_false]
      intro e he
      rcases List.mem_append.mp he with hm | hm
      · exact h e hm
      · rw [List.mem_singleton.mp hm]
        simp [mkSaleEntry]
  | markSyncedOp id sid now =>
    dsimp only [stepOp]
    unfold mark_synced
    split
    · exact h
    next e0 hf =>
      split
      · dsimp only
        intro x hx
        rcases mem_updateSaleById id _ st.sales e0 hf x hx with hm | hm
        · exact h x hm
        · rw [hm]
          simp
      · split
        · exact h
        · exact h
      · exact h
  | markFailedOp id msg =>
    dsimp only [stepOp]
    unfold mark_failed
    split
    · exact h
    next e0 hf =>
      split
      next hs =>
        dsimp only
        intro x hx
        rcases mem_updateSaleById id _ st.sales e0 hf x hx with hm | hm
        · exact h x hm
        · have he0 : e0 ∈ st.sales := List.mem_of_find?_eq_some hf
          have h0 := h e0 he0
          rw [hs] at h0
          have h1 : e0.server_sale_id.isSome = false := by
            cases hcase : e0.server_sale_id.isSome
            · rfl
            · exact absurd (h0.mp hcase) (by simp)
          rw [hm]
          dsimp only
          simp [h1]
      · exact h

/-- C3: in every store state reachable through the exposed operations,
an offline sale entry carries a server_sale_id exactly when its status
is synced. -/
theorem server_sale_id_iff_synced (ops : List StoreOp)
    (e : OfflineSaleEntry) (he : e ∈ (runOps ops).sales) :
    e.server_sale_id.isSome = true ↔ e.status = SaleStatus.synced := by
  have hinv := store_inv_run
    (fun s => ∀ x ∈ s.sales,
      (x.server_sale_id.isSome = true ↔ x.status = SaleStatus.synced))
    (fun _ => True)
    (fun s op hInv _ => stepOp_sale_inv s op hInv)
    ops emptyStore (by simp [emptyStore]) (fun _ _ => trivial)
  exact hinv e he

/-- Witness for C3 on the concrete run that enqueues a sale and marks
it synced with server id 77. -/
theorem server_sale_id_iff_synced_witness :
    sampleSyncedEntry.server_sale_id.isSome = true ↔
      sampleSyncedEntry.status = SaleStatus.synced :=
  server_sale_id_iff_synced
    [ StoreOp.enqueueSaleOp samplePayload 5
    , StoreOp.markSyncedOp 1 77 6 ]
    sampleSyncedEntry (by decide)

/-- A successful bulk product insert never stores two rows with the
same code: each insert is guarded by the UNIQUE constraint. -/
theorem insertProducts_codes :
    ∀ (l acc rows : List Product), insertProducts acc l = some rows →
      ((acc.map Product.code).Nodup) → ((rows.map Product.code).Nodup)
  | [], acc, rows, h, hn => by
    simp [insertProducts] at h
    rw [← h]
    exact hn
  | p :: rest, acc, rows, h, hn => by
    by_cases hgd : (acc.any fun q => q.code == p.code || q.id == p.id) = true
    · simp [insertProducts, hgd] at h
    · simp only [insertProducts, hgd, if_neg, Bool.not_eq_true] at h
      refine insertProducts_codes rest (acc ++ [p]) rows h ?_
      have hfresh : p.code ∉ acc.map Product.code := by
        intro hmem
        rcases List.mem_map.mp hmem with ⟨q, hq, heq⟩
        exact hgd (List.any_eq_true.mpr ⟨q, hq, by simp [heq]⟩)
      rw [List.map_append]
      refine hn.append (by simp) ?_
      simpa [List.disjoint_singleton] using hfresh

/-- update_stock keeps every product code. -/
theorem codes_update_stock (st : Store) (pid : Nat) (qty : Int) (now : Nat) :
    (((update_stock st pid qty now).1).products).map Product.code =
      (st.products).map Product.code := by
  dsimp only [update_stock]
  rw [List.map_map]
  refine List.map_congr_left ?_
  intro a _
  dsimp only [Function.comp]
  split <;> rfl

/-- update_stock keeps every product price. -/
theorem prices_update_stock (st : Store) (pid : Nat) (qty : Int) (now : Nat)
    (h : ∀ p ∈ st.products, 0 ≤ p.price) :
    ∀ p ∈ ((update_stock st pid qty now).1).products, 0 ≤ p.price := by
  dsimp only [update_stock]
  intro p hp
  rcases List.mem_map.mp hp with ⟨a, ha, heq⟩
  have hpa := h a ha
  rw [← heq]
  split
  · exact hpa
  · exact hpa

/-- Each store step keeps the product codes free of duplicates. -/
theorem stepOp_codes_nodup (st : Store) (op : StoreOp)
    (h : ((st.products).map Product.code).Nodup) :
    ((((stepOp st op).products).map Product.code)).Nodup := by
  cases op with
  | replaceProductsOp snapshot =>
    dsimp only [stepOp]
    cases hins : insertProducts [] snapshot with
    | none => simp only [replace_products, hins]; exact h
    | some rows =>
      simp only [replace_products, hins]
      exact insertProducts_codes snapshot [] rows hins (by simp)
  | replaceClientsOp snapshot =>
    dsimp only [stepOp]
    simp only [products_replace_clients]
    exact h
  | enqueueSaleOp p now =>
    dsimp only [stepOp]
    simp only [products_enqueue_sale]
    exact h
  | markSyncedOp id sid now =>
    dsimp only [stepOp]
    simp only [products_mark_synced]
    exact h
  | markFailedOp id msg =>
    dsimp only [stepOp]
    simp only [products_mark_failed]
    exact h
  | updateStockOp pid qty now =>
    dsimp only [stepOp]
    rw [codes_update_stock]
    exact h

/-- Each store step whose snapshot (if any) has nonnegative prices
keeps every stored price nonnegative. -/
theorem stepOp_prices_nonneg (st : Store) (op : StoreOp)
    (h : ∀ p ∈ st.products, 0 ≤ p.price) (hg : snapshotPricesNonneg op) :
    ∀ p ∈ (stepOp st op).products, 0 ≤ p.price := by
  cases op with
  | replaceProductsOp snapshot =>
    dsimp only [stepOp]
    cases hins : insertProducts [] snapshot with
    | none => simp only [replace_products, hins]; exact h
    | some rows =>
      simp only [replace_products, hins]
      have hr := insertProducts_eq snapshot [] rows hins
      simp only [List.nil_append] at hr
      rw [hr]
      exact hg
  | replaceClientsOp snapshot =>
    dsimp only [stepOp]
    simp only [products_replace_clients]
    exact h
  | enqueueSaleOp p now =>
    dsimp only [stepOp]
    simp only [products_enqueue_sale]
    exact h
  | markSyncedOp id sid now =>
    dsimp only [stepOp]
    simp only [products_mark_synced]
    exact h
  | markFailedOp id msg =>
    dsimp only [stepOp]
    simp only [products_mark_failed]
    exact h
  | updateStockOp pid qty now =>
    dsimp only [stepOp]
    exact prices_update_stock st pid qty now h

/-- C6 counterexample: the schema never checks prices, so a refresh
whose snapshot carries a product priced -1 is accepted wholesale and
stores a product with negative price. -/
theorem product_price_counterexample :
    (replace_products emptyStore [negativePriceProduct]).2 = Except.ok 1 ∧
    negativePriceProduct ∈
      (replace_products emptyStore [negativePriceProduct]).1.products ∧
    negativePriceProduct.price < 0 :=
  ⟨rfl, by decide, by decide⟩

/-- C6 amended: after every sequence of write operations the stored
product codes are globally unique (the UNIQUE constraint); prices are
nonnegative only under the extra assumption that every snapshot
supplied to replace_products has nonnegative prices, since the schema
does not enforce price nonnegativity. -/
theorem product_invariant_amended (ops : List StoreOp) :
    (((runOps ops).products).map Product.code).Nodup ∧
    ((∀ op ∈ ops, snapshotPricesNonneg op) →
      ∀ p ∈ (runOps ops).products, 0 ≤ p.price) := by
  constructor
  · exact store_inv_run
      (fun s => ((s.products).map Product.code).Nodup)
      (fun _ => True)
      (fun s op hInv _ => stepOp_codes_nodup s op hInv)
      ops emptyStore (by simp [emptyStore]) (fun _ _ => trivial)
  · intro hgood
    exact store_inv_run
      (fun s => ∀ p ∈ s.products, 0 ≤ p.price)
      snapshotPricesNonneg
      (fun s op hInv hG => stepOp_prices_nonneg s op hInv hG)
      ops emptyStore (by simp [emptyStore]) hgood

/-- Witness for C6 amended on a concrete well-priced refresh. -/
theorem product_invariant_amended_witness :
    (((runOps [StoreOp.replaceProductsOp goodSnapshot]).products).map
      Product.code).Nodup ∧
    (∀ p ∈ (runOps [StoreOp.replaceProductsOp goodSnapshot]).products,
      0 ≤ p.price) :=
  ⟨(product_invariant_amended [StoreOp.replaceProductsOp goodSnapshot]).1,
   (product_invariant_amended [StoreOp.replaceProductsOp goodSnapshot]).2
     (by
       intro op hop
       rw [List.mem_singleton.mp hop]
       intro q hq
       rw [List.mem_singleton.mp hq]
       decide)⟩

end Vopecs
